import Mathlib

/-!
Verification of the Alerting & Notification Platform repository slice:
the bootstrap entry point (`run.py`) and the HTTP integration-test
harness (`test_system.py`), plus the backend behavioural contract the
harness exercises (modelled from the specification, since the
implementing modules are not part of the visible source).
-/

set_option linter.unusedVariables false

/-! ## A small JSON value model (for request/response bodies) -/

/-- JSON values, as passed around by the harness (`requests` bodies). -/
inductive Json where
  | null
  | bool (b : Bool)
  | num (n : Int)
  | str (s : String)
  | arr (elems : List Json)
  | obj (fields : List (String × Json))

/-- Dictionary lookup on a JSON object, mirroring Python `dict.get(k)`
    (returns `none` when the key is absent or the value is not a dict). -/
def Json.lookup (j : Json) (k : String) : Option Json :=
  match j with
  | .obj fields => fields.lookup k
  | _ => none

/-- Python truthiness of a JSON value (`None`, `False`, `0`, `""`, `[]`,
    `{}` are falsy). -/
def Json.truthy : Json → Bool
  | .null => false
  | .bool b => b
  | .num n => n != 0
  | .str s => !s.isEmpty
  | .arr elems => !elems.isEmpty
  | .obj fields => !fields.isEmpty

/-- Truthiness of `d.get(k)`: Python `None` (absent key) is falsy. -/
def truthyOpt : Option Json → Bool
  | none => false
  | some j => j.truthy

/-- Python `d.get(k, default)`. -/
def pyDictGetD (j : Json) (k : String) (d : Json) : Json :=
  (j.lookup k).getD d

/-! ## `run.py` — bootstrap entry point -/

/-- The process environment as read by `main` in `run.py`: it consults
    exactly the variables `FLASK_ENV`, `HOST` and `PORT`
    (`none` = variable unset). -/
structure Env where
  flaskEnv : Option String
  host : Option String
  port : Option String
deriving Repr, DecidableEq

/-- Python `os.getenv(var, default)`. -/
def pyGetenv (v : Option String) (dflt : String) : String :=
  v.getD dflt

/-- Strip leading and trailing whitespace from a character list. -/
def stripWs (cs : List Char) : List Char :=
  ((cs.dropWhile Char.isWhitespace).reverse.dropWhile Char.isWhitespace).reverse

/-- Python `int(s)` on a string: optional surrounding whitespace, an
    optional sign, then a non-empty run of decimal digits; any other
    string raises `ValueError` (modelled as `none`). -/
def pyIntOfString (s : String) : Option Int :=
  let core :=
    match stripWs s.toList with
    | '-' :: cs => (true, cs)
    | '+' :: cs => (false, cs)
    | cs => (false, cs)
  match core with
  | (neg, digits) =>
    if digits.isEmpty then none
    else if digits.all (fun c => c.isDigit) then
      let n : Nat := digits.foldl (fun acc c => acc * 10 + (c.toNat - 48)) 0
      some (if neg then -(n : Int) else (n : Int))
    else none

/-- `int(os.getenv('PORT', 5000))` in `run.py` line 24: when `PORT` is
    unset, `os.getenv` returns the *integer* default `5000` and `int`
    is the identity on it; when it is set, the string is parsed and a
    non-integer raises `ValueError` (`none`). -/
def portValue (env : Env) : Option Int :=
  match env.port with
  | none => some 5000
  | some s => pyIntOfString s

/-- What the external `app.run(...)` call does: returns normally, is
    interrupted by Ctrl-C (`KeyboardInterrupt`), or raises some other
    exception carrying a message. -/
inductive RunEvent where
  | returns
  | keyboardInterrupt
  | raises (msg : String)
deriving Repr, DecidableEq

/-- The observable outcome of one execution of `main` in `run.py`:
    the lines printed, the exit code passed to `sys.exit` (if any), and
    an exception escaping `main` uncaught (if any). -/
structure MainResult where
  messages : List String
  exitCode : Option Nat
  uncaught : Option String
deriving Repr, DecidableEq

/-- The clean-shutdown line printed by the `KeyboardInterrupt` handler
    (`run.py` line 45). -/
def shutdownMsg : String := "\n👋 Shutting down Alerting Platform..."

/-- The startup-error line printed by the generic `Exception` handler
    (`run.py` line 47). -/
def errorStartMsg (e : String) : String :=
  s!"\n❌ Error starting application: {e}"

/-- The banner lines printed by `main` before the `try` block
    (`run.py` lines 27-39). -/
def bannerMsgs (config_name host : String) (port : Int) (debug : Bool) : List String :=
  let head := [s!"\n🚀 Starting Alerting & Notification Platform",
    s!"📍 Running on http://{host}:{port}",
    s!"🔧 Environment: {config_name}",
    s!"🐛 Debug mode: {debug}"]
  let dev :=
    if config_name = "development" then
      [s!"\n📚 API Documentation:",
       s!"   Admin APIs: http://{host}:{port}/api/admin/",
       s!"   User APIs:  http://{host}:{port}/api/user/",
       s!"   Analytics:  http://{host}:{port}/api/analytics/",
       s!"\n💡 Sample admin user: admin@example.com"]
    else []
  head ++ dev ++ ["\n" ++ String.mk (List.replicate 50 '=')]

/-- `main` from `run.py`: reads configuration from the environment
    (FLASK_ENV, HOST, PORT), prints the banner, then runs the app inside
    a `try` that catches `KeyboardInterrupt` (clean message) and any
    other `Exception` (error message, `sys.exit(1)`). Configuration
    parsing, including `int(os.getenv('PORT', 5000))`, happens *before*
    the `try`, so a `ValueError` there escapes `main` uncaught. The
    external `create_app` call is out of scope per the spec and assumed
    to return. -/
def runMain (env : Env) (ev : RunEvent) : MainResult :=
  let config_name := pyGetenv env.flaskEnv "development"
  let host := pyGetenv env.host "127.0.0.1"
  match portValue env with
  | none => { messages := [], exitCode := none, uncaught := some "ValueError" }
  | some port =>
    let debug := config_name == "development"
    let banner := bannerMsgs config_name host port debug
    match ev with
    | .returns => { messages := banner, exitCode := none, uncaught := none }
    | .keyboardInterrupt =>
        { messages := banner ++ [shutdownMsg], exitCode := none, uncaught := none }
    | .raises e =>
        { messages := banner ++ [errorStartMsg e], exitCode := some 1, uncaught := none }

/-- The bootstrap configuration computed by `main` (`run.py` lines 17-25):
    configuration name, host, port, debug flag. `none` when port parsing
    raises. -/
structure BootConfig where
  configName : String
  bootHost : String
  bootPort : Int
  debug : Bool
deriving Repr, DecidableEq

/-- The configuration-extraction part of `main` (`run.py` lines 17-25). -/
def bootConfig (env : Env) : Option BootConfig :=
  match portValue env with
  | none => none
  | some p =>
    some { configName := pyGetenv env.flaskEnv "development",
           bootHost := pyGetenv env.host "127.0.0.1",
           bootPort := p,
           debug := pyGetenv env.flaskEnv "development" == "development" }

/-! ## `test_system.py` — the HTTP test harness -/

/-- `BASE_URL` from `test_system.py` line 12. -/
def BASE_URL : String := "http://127.0.0.1:5000"

/-- An HTTP response as seen by the harness: status code, raw body text
    (`response.text`; `response.content` is non-empty exactly when the
    text is), and the result of `response.json()` (`none` = the body
    does not parse as JSON, so `json()` raises). -/
structure HttpResponse where
  status_code : Nat
  text : String
  jsonBody : Option Json

/-- The Python exceptions that can arise inside the `try` block of
    `test_api_endpoint`. -/
inductive PyExc where
  | connectionError
  | valueError (msg : String)
  | jsonDecodeError
  | other (msg : String)

/-- The outcome of the one `requests.get/post/put` call the harness
    issues: a response, or an exception raised during request
    execution. -/
abbrev Net : Type := Except PyExc HttpResponse

/-- Python `method.upper()`, modelled character-wise (the methods the
    harness compares against are all ASCII). -/
def pyUpper (s : String) : List Char :=
  s.toList.map Char.toUpper

/-- `method.upper()` membership test from `test_system.py` lines 19-24:
    the dispatch on GET/POST/PUT is case-insensitive. -/
def supportedMethod (method : String) : Bool :=
  pyUpper method == "GET".toList || pyUpper method == "POST".toList ||
    pyUpper method == "PUT".toList

/-- The per-call status line printed by `test_api_endpoint`
    (`test_system.py` line 28). -/
def statusLine (method endpoint : String) (code expected : Nat) : String :=
  let mark := if code == expected then "✅" else "❌"
  s!"{mark} {method} {endpoint} - Status: {code}"

/-- The two mismatch-report lines printed when the status differs from
    the expected one (`test_system.py` lines 30-32), including the
    `response.text[:200]` excerpt. -/
def mismatchLines (resp : HttpResponse) (expected : Nat) : List String :=
  if resp.status_code ≠ expected then
    let got := resp.status_code
    let excerpt := resp.text.take 200
    [s!"   Expected: {expected}, Got: {got}",
     s!"   Response: {excerpt}..."]
  else []

/-- The connection-failure lines (`test_system.py` lines 37-38). -/
def connFailedLines (url : String) : List String :=
  [s!"❌ Connection failed to {url}",
   "   Make sure the server is running: python run.py"]

/-- The generic-error line (`test_system.py` line 41). -/
def errorTestingLine (method endpoint msg : String) : String :=
  s!"❌ Error testing {method} {endpoint}: {msg}"

/-- `str(e)` for the modelled exceptions. -/
def PyExc.message : PyExc → String
  | .connectionError => "ConnectionError"
  | .valueError msg => msg
  | .jsonDecodeError => "JSONDecodeError"
  | .other msg => msg

/-- The body of the `try` block of `test_api_endpoint`
    (`test_system.py` lines 18-34): dispatch on `method.upper()`
    (raising `ValueError` otherwise), issue the request, print the
    status line and any mismatch report, and return
    `response.json() if response.content else {}`. Result: the console
    lines printed so far, the number of HTTP requests issued, and the
    value returned or the exception raised. -/
def tryBody (net : Net) (method endpoint : String) (expected : Nat) :
    List String × Nat × Except PyExc Json :=
  if supportedMethod method then
    match net with
    | .error e => ([], 1, .error e)
    | .ok resp =>
      let line := statusLine method endpoint resp.status_code expected
      let extra := mismatchLines resp expected
      if resp.text.isEmpty then
        (line :: extra, 1, .ok (Json.obj []))
      else
        match resp.jsonBody with
        | some j => (line :: extra, 1, .ok j)
        | none => (line :: extra, 1, .error .jsonDecodeError)
  else
    ([], 0, .error (.valueError ("Unsupported method: " ++ method)))

/-- What one call to `test_api_endpoint` produces: the console lines,
    the returned value (`none` = the Python function returned `None`;
    `some` = it returned a dict/JSON value), and how many HTTP requests
    it issued. -/
structure TestResult where
  console : List String
  result : Option Json
  attempts : Nat

/-- `test_api_endpoint` from `test_system.py` lines 14-42: runs the
    `try` body, then the `except requests.exceptions.ConnectionError`
    handler or the generic `except Exception` handler. Both handlers
    print and return `None`; no exception escapes and nothing is
    retried. -/
def test_api_endpoint (net : Net) (method endpoint : String) (expected : Nat) :
    TestResult :=
  let url := BASE_URL ++ endpoint
  match tryBody net method endpoint expected with
  | (console, attempts, .ok j) =>
      { console := console, result := some j, attempts := attempts }
  | (console, attempts, .error .connectionError) =>
      { console := console ++ connFailedLines url, result := none, attempts := attempts }
  | (console, attempts, .error e) =>
      { console := console ++ [errorTestingLine method endpoint e.message],
        result := none, attempts := attempts }

/-- One textual call site of `test_api_endpoint` in the harness:
    method, endpoint, and the `expected_status` argument (200 when the
    call relies on the default). -/
structure CallSite where
  method : String
  endpoint : String
  expected : Nat
deriving Repr, DecidableEq

/-- Every `test_api_endpoint` call site in `run_comprehensive_tests`
    and `test_reminder_system` (`test_system.py`), in source order,
    with the ids interpolated into f-string endpoints as parameters.
    Only the alert-creation POST (line 94) passes an explicit
    `expected_status`, namely 201; all other calls use the default 200. -/
def harnessCallSites (testAlertId userId alertId remAlertId : String) : List CallSite :=
  [⟨"GET", "/api/analytics/system/health", 200⟩,
   ⟨"GET", "/api/admin/users", 200⟩,
   ⟨"GET", "/api/admin/teams", 200⟩,
   ⟨"GET", "/api/admin/alerts", 200⟩,
   ⟨"POST", "/api/admin/alerts", 201⟩,
   ⟨"PUT", "/api/admin/alerts/" ++ testAlertId, 200⟩,
   ⟨"POST", "/api/admin/alerts/" ++ testAlertId ++ "/archive", 200⟩,
   ⟨"GET", "/api/user/alerts?user_id=" ++ userId, 200⟩,
   ⟨"GET", "/api/user/dashboard?user_id=" ++ userId, 200⟩,
   ⟨"POST", "/api/user/alerts/" ++ alertId ++ "/read", 200⟩,
   ⟨"POST", "/api/user/alerts/" ++ alertId ++ "/snooze", 200⟩,
   ⟨"POST", "/api/user/alerts/" ++ alertId ++ "/unread", 200⟩,
   ⟨"GET", "/api/analytics/overview", 200⟩,
   ⟨"GET", "/api/analytics/alerts/performance?limit=10", 200⟩,
   ⟨"GET", "/api/analytics/trends/daily?days=7", 200⟩,
   ⟨"GET", "/api/analytics/users/engagement?limit=10", 200⟩,
   ⟨"GET", "/api/user/notifications/history?user_id=" ++ userId ++ "&per_page=5", 200⟩,
   ⟨"GET", "/api/admin/stats/system", 200⟩,
   ⟨"GET", "/api/admin/alerts?status=active", 200⟩,
   ⟨"POST", "/api/admin/alerts/" ++ remAlertId ++ "/send-reminder", 200⟩]

/-- `create_response['alert']['id']` (`test_system.py` line 96): how the
    harness extracts the created alert's id. -/
def extractCreatedId (resp : Json) : Option Json :=
  (resp.lookup "alert").bind (fun a => a.lookup "id")

/-- The reminder-response handling branch of `test_reminder_system`
    (`test_system.py` lines 200-204): the success path is taken exactly
    when the returned value is truthy and its `success` entry is truthy;
    the reported count is `reminder_response.get('reminders_sent', 0)`. -/
def reminderBranch (reminder_response : Option Json) : Bool × Json :=
  match reminder_response with
  | some r =>
    if r.truthy && truthyOpt (r.lookup "success") then
      (true, pyDictGetD r "reminders_sent" (Json.num 0))
    else (false, Json.num 0)
  | none => (false, Json.num 0)

/-! ## Backend contract (modelled from the spec)

The modules implementing alerts, deliveries and reminders are not part
of the visible source; the following definitions are modelled from the
specification's data model (section 3) and external contract
(section 4). -/

/-- Modelled from the spec: the per-user delivery state
    (read/unread/snoozed); the delivery tracker module is not in the
    excerpt. -/
inductive ReadState where
  | unread
  | read
  | snoozed
deriving Repr, DecidableEq

/-- Modelled from the spec: an Alert record — id, title, message,
    severity, visibility_type, created_by, expiry_time, is_active; the
    data-model module is not in the excerpt. -/
structure Alert where
  id : Nat
  title : String
  message : String
  severity : String
  visibility_type : String
  created_by : Nat
  expiry_time : Int
  is_active : Bool
deriving Repr, DecidableEq

/-- Modelled from the spec: a Delivery record associating an Alert with
    a User and tracking its read/unread/snoozed state; the delivery
    tracker module is not in the excerpt. -/
structure Delivery where
  alert_id : Nat
  user_id : Nat
  state : ReadState
deriving Repr, DecidableEq

/-- Modelled from the spec: the backend store — alerts and deliveries,
    with a fresh-id counter for server-assigned alert ids; the
    persistence layer is not in the excerpt. -/
structure Backend where
  alerts : List Alert
  deliveries : List Delivery
  next_id : Nat
deriving Repr, DecidableEq

/-- Modelled from the spec: alert creation (POST /api/admin/alerts) —
    accepts {title, message, severity, visibility_type, created_by,
    expiry_time}, stores a new active alert under a fresh id, and
    returns 201 with {success, alert:{id,…}}; the implementing module
    is not in the excerpt. -/
def createAlert (b : Backend) (title message severity visibility_type : String)
    (created_by : Nat) (expiry_time : Int) : Backend × Nat × Json :=
  let a : Alert :=
    { id := b.next_id, title := title, message := message, severity := severity,
      visibility_type := visibility_type, created_by := created_by,
      expiry_time := expiry_time, is_active := true }
  ({ alerts := b.alerts ++ [a], deliveries := b.deliveries, next_id := b.next_id + 1 },
   201,
   Json.obj [("success", Json.bool true),
             ("alert", Json.obj [("id", Json.num (Int.ofNat b.next_id))])])

/-- The per-alert effect of an update: overwrite severity/message on
    the matching alert, leave others alone. -/
def updA (id : Nat) (sev? msg? : Option String) (a : Alert) : Alert :=
  if a.id == id then
    { a with severity := sev?.getD a.severity, message := msg?.getD a.message }
  else a

/-- Modelled from the spec: alert update (PUT /api/admin/alerts/{id}) —
    accepts a partial field set (severity, message); the implementing
    module is not in the excerpt. -/
def updateAlert (b : Backend) (id : Nat) (sev? msg? : Option String) : Backend :=
  { b with alerts := b.alerts.map (updA id sev? msg?) }

/-- The per-alert effect of archival: deactivate the matching alert,
    leave others alone. -/
def archA (id : Nat) (a : Alert) : Alert :=
  if a.id == id then { a with is_active := false } else a

/-- Modelled from the spec: archival
    (POST /api/admin/alerts/{id}/archive) transitions the alert to
    inactive (terminal, sets is_active = false); the implementing
    module is not in the excerpt. -/
def archiveAlert (b : Backend) (id : Nat) : Backend :=
  { b with alerts := b.alerts.map (archA id) }

/-- Modelled from the spec: the `status=active` filtered listing
    (GET /api/admin/alerts?status=active); the implementing module is
    not in the excerpt. -/
def listActiveAlerts (b : Backend) : List Alert :=
  b.alerts.filter (fun a => a.is_active)

/-- Does a delivery belong to the given alert/user pair? -/
def matchD (alert_id user_id : Nat) (d : Delivery) : Bool :=
  d.alert_id == alert_id && d.user_id == user_id

/-- The update applied to one delivery by a read/unread/snooze action. -/
def updD (alert_id user_id : Nat) (s : ReadState) (d : Delivery) : Delivery :=
  if matchD alert_id user_id d then { d with state := s } else d

/-- Modelled from the spec: the read/unread/snooze state mutations
    (POST /api/user/alerts/{id}/read|unread|snooze, each accepting
    {user_id}) — they mutate the per-user state of the matching
    delivery; the implementing module is not in the excerpt. -/
def setDeliveryState (b : Backend) (alert_id user_id : Nat) (s : ReadState) : Backend :=
  { b with deliveries := b.deliveries.map (updD alert_id user_id s) }

/-- Modelled from the spec: POST /api/user/alerts/{id}/read. -/
def markRead (b : Backend) (alert_id user_id : Nat) : Backend :=
  setDeliveryState b alert_id user_id ReadState.read

/-- Modelled from the spec: POST /api/user/alerts/{id}/unread. -/
def markUnread (b : Backend) (alert_id user_id : Nat) : Backend :=
  setDeliveryState b alert_id user_id ReadState.unread

/-- Modelled from the spec: POST /api/user/alerts/{id}/snooze. -/
def markSnooze (b : Backend) (alert_id user_id : Nat) : Backend :=
  setDeliveryState b alert_id user_id ReadState.snoozed

/-- The per-user state of the delivery of an alert to a user, if that
    alert has been delivered to (is visible to) the user. -/
def deliveryState (b : Backend) (alert_id user_id : Nat) : Option ReadState :=
  (b.deliveries.find? (matchD alert_id user_id)).map (fun d => d.state)

/-- Modelled from the spec: the users eligible for a reminder on an
    alert are those with a still-unread delivery of it ("users who have
    not acknowledged them"); the reminder module is not in the excerpt. -/
def eligibleUserCount (b : Backend) (alert_id : Nat) : Nat :=
  (b.deliveries.filter (fun d => d.alert_id == alert_id && d.state == ReadState.unread)).length

/-- Look up an alert by id. -/
def findAlert (b : Backend) (id : Nat) : Option Alert :=
  b.alerts.find? (fun a => a.id == id)

/-- Modelled from the spec: the reminder trigger endpoint
    (POST /api/admin/alerts/{id}/send-reminder) — returns
    {success, reminders_sent}; it must only act on active alerts, and
    zero eligible users is a non-error outcome; the reminder module is
    not in the excerpt. -/
def sendReminder (b : Backend) (id : Nat) : Json :=
  match findAlert b id with
  | some a =>
    if a.is_active then
      Json.obj [("success", Json.bool true),
                ("reminders_sent", Json.num (Int.ofNat (eligibleUserCount b id)))]
    else
      Json.obj [("success", Json.bool false), ("reminders_sent", Json.num 0)]
  | none => Json.obj [("success", Json.bool false), ("reminders_sent", Json.num 0)]

/-- Modelled from the spec: the state-mutating operations the API
    exposes after an alert exists (create, update, archive, the
    read/unread/snooze mutations, and reminder triggering, which reads
    the alert set without changing any alert's activity). -/
inductive Op where
  | create (title message severity visibility_type : String)
      (created_by : Nat) (expiry_time : Int)
  | update (id : Nat) (sev? msg? : Option String)
  | archive (id : Nat)
  | markRead (alert_id user_id : Nat)
  | markUnread (alert_id user_id : Nat)
  | markSnooze (alert_id user_id : Nat)
  | sendRem (id : Nat)

/-- Modelled from the spec: the effect of one API operation on the
    backend store. -/
def step (b : Backend) (op : Op) : Backend :=
  match op with
  | .create t m s v c e => (createAlert b t m s v c e).1
  | .update id s m => updateAlert b id s m
  | .archive id => archiveAlert b id
  | .markRead a u => markRead b a u
  | .markUnread a u => markUnread b a u
  | .markSnooze a u => markSnooze b a u
  | .sendRem _ => b

/-- The invariant carried through arbitrary operation sequences after
    an alert has been archived: all stored ids are below the fresh-id
    counter, the archived id is below it too, and every stored alert
    with the archived id is inactive. -/
def ArchivedInv (id : Nat) (b : Backend) : Prop :=
  (∀ a ∈ b.alerts, a.id < b.next_id) ∧ id < b.next_id ∧
    (∀ a ∈ b.alerts, a.id = id → a.is_active = false)

/-! ## Theorems -/

/-- Claim C1: the bootstrap entry point `main` catches exactly two
    exception classes around server startup: `KeyboardInterrupt`, on
    which it prints a clean shutdown message and does not exit with
    code 1, and any other `Exception`, on which it prints an error
    message and exits the process with exit code 1. -/
theorem main_catches_interrupt_and_startup_exception :
    ∀ (env : Env) (p : Int), portValue env = some p →
      ((runMain env RunEvent.keyboardInterrupt).exitCode = none ∧
       shutdownMsg ∈ (runMain env RunEvent.keyboardInterrupt).messages ∧
       (runMain env RunEvent.keyboardInterrupt).uncaught = none) ∧
      (∀ e : String,
        (runMain env (RunEvent.raises e)).exitCode = some 1 ∧
        errorStartMsg e ∈ (runMain env (RunEvent.raises e)).messages ∧
        (runMain env (RunEvent.raises e)).uncaught = none) := by
  intro env p h
  simp [runMain, h]

/-- Witness for C1 at the empty environment (port defaults to 5000). -/
theorem main_catches_interrupt_witness :
    (runMain ⟨none, none, none⟩ RunEvent.keyboardInterrupt).exitCode = none ∧
    (runMain ⟨none, none, none⟩ (RunEvent.raises "boom")).exitCode = some 1 :=
  ⟨(main_catches_interrupt_and_startup_exception ⟨none, none, none⟩ 5000 rfl).1.1,
   ((main_catches_interrupt_and_startup_exception ⟨none, none, none⟩ 5000 rfl).2 "boom").1⟩

/-- Claim C2: the bootstrap configuration is determined by `FLASK_ENV`,
    `HOST` and `PORT`, with defaults "development", "127.0.0.1" and
    5000 when unset, and debug mode is enabled iff the configuration
    name equals "development". -/
theorem bootstrap_config_defaults_and_debug :
    bootConfig ⟨none, none, none⟩ =
      some { configName := "development", bootHost := "127.0.0.1",
             bootPort := 5000, debug := true } ∧
    ∀ (env : Env) (c : BootConfig), bootConfig env = some c →
      (c.debug = true ↔ c.configName = "development") := by
  constructor
  · rfl
  · intro env c h
    unfold bootConfig at h
    cases hp : portValue env with
    | none => rw [hp] at h; cases h
    | some p =>
      rw [hp] at h
      simp only [Option.some.injEq] at h
      subst h
      simp [beq_iff_eq]

/-- Witness for C2 at a non-development environment. -/
theorem bootstrap_config_defaults_witness :
    (({ configName := "production", bootHost := "127.0.0.1", bootPort := 8080,
        debug := false } : BootConfig).debug = true ↔
     ({ configName := "production", bootHost := "127.0.0.1", bootPort := 8080,
        debug := false } : BootConfig).configName = "development") :=
  bootstrap_config_defaults_and_debug.2 ⟨some "production", none, some "8080"⟩ _ (by decide)

/-- Claim C10: the exception handlers in `main` guard only the
    `app.run` call; `int(os.getenv('PORT', 5000))` runs before the
    `try`, so a non-integer `PORT` raises a `ValueError` that `main`
    does not catch — no shutdown message, no startup-error message,
    and no `sys.exit(1)`. -/
theorem port_parse_error_escapes_main :
    ∀ (env : Env) (s : String) (ev : RunEvent),
      env.port = some s → pyIntOfString s = none →
      runMain env ev =
        { messages := [], exitCode := none, uncaught := some "ValueError" } := by
  intro env s ev hport hparse
  simp [runMain, portValue, hport, hparse]

/-- Witness for C10 at `PORT=abc`. -/
theorem port_parse_error_escapes_main_witness :
    runMain ⟨none, none, some "abc"⟩ RunEvent.returns =
      { messages := [], exitCode := none, uncaught := some "ValueError" } :=
  port_parse_error_escapes_main ⟨none, none, some "abc"⟩ "abc" RunEvent.returns rfl
    (by decide)

/-- Claim C3: when the request raises a connection error or any other
    exception during execution, `test_api_endpoint` reports the failure
    to the console (the connection-failure lines or the generic error
    line), returns `None`, and issues the request exactly once (no
    retry); no exception reaches the caller. -/
theorem request_exception_reported_and_none :
    ∀ (method endpoint : String) (expected : Nat) (e : PyExc),
      supportedMethod method = true →
      (test_api_endpoint (Except.error e) method endpoint expected).result = none ∧
      (test_api_endpoint (Except.error e) method endpoint expected).attempts = 1 ∧
      ((test_api_endpoint (Except.error e) method endpoint expected).console =
         connFailedLines (BASE_URL ++ endpoint) ∨
       (test_api_endpoint (Except.error e) method endpoint expected).console =
         [errorTestingLine method endpoint e.message]) := by
  intro method endpoint expected e h
  cases e <;> simp [test_api_endpoint, tryBody, h]

/-- Witness for C3: a GET hit by a connection error. -/
theorem request_exception_reported_witness :
    (test_api_endpoint (Except.error PyExc.connectionError) "GET" "/api/admin/users"
        200).result = none :=
  (request_exception_reported_and_none "GET" "/api/admin/users" 200
    PyExc.connectionError (by decide)).1

/-- Claim C4: for a completed request whose status differs from the
    expected one, `test_api_endpoint` prints the status line followed by
    the two mismatch-report lines (expected vs. actual, plus a response
    excerpt), issues no retry, and still returns the parsed JSON body —
    or an empty dict when the body is empty — rather than an error. -/
theorem status_mismatch_reported_body_returned :
    ∀ (method endpoint : String) (expected : Nat) (resp : HttpResponse),
      supportedMethod method = true →
      resp.status_code ≠ expected →
      (resp.text.isEmpty = true ∨ resp.jsonBody.isSome = true) →
      (test_api_endpoint (Except.ok resp) method endpoint expected).console =
          statusLine method endpoint resp.status_code expected ::
            mismatchLines resp expected ∧
      (mismatchLines resp expected).length = 2 ∧
      (test_api_endpoint (Except.ok resp) method endpoint expected).attempts = 1 ∧
      (test_api_endpoint (Except.ok resp) method endpoint expected).result =
          some (if resp.text.isEmpty then Json.obj []
                else resp.jsonBody.getD (Json.obj [])) := by
  intro method endpoint expected resp h hne hbody
  refine ⟨?_, ?_, ?_, ?_⟩
  case _ =>
    rcases hbody with hemp | hsome
    · simp [test_api_endpoint, tryBody, h, hemp]
    · rcases Option.isSome_iff_exists.mp hsome with ⟨j, hj⟩
      by_cases hemp : resp.text.isEmpty
      · simp [test_api_endpoint, tryBody, h, hemp]
      · simp [test_api_endpoint, tryBody, h, hemp, hj]
  case _ => simp [mismatchLines, hne]
  case _ =>
    rcases hbody with hemp | hsome
    · simp [test_api_endpoint, tryBody, h, hemp]
    · rcases Option.isSome_iff_exists.mp hsome with ⟨j, hj⟩
      by_cases hemp : resp.text.isEmpty
      · simp [test_api_endpoint, tryBody, h, hemp]
      · simp [test_api_endpoint, tryBody, h, hemp, hj]
  case _ =>
    rcases hbody with hemp | hsome
    · simp [test_api_endpoint, tryBody, h, hemp]
    · rcases Option.isSome_iff_exists.mp hsome with ⟨j, hj⟩
      by_cases hemp : resp.text.isEmpty
      · simp [test_api_endpoint, tryBody, h, hemp]
      · simp [test_api_endpoint, tryBody, h, hemp, hj]

/-- Witness for C4: a 404 against expected 200 with a JSON body. -/
theorem status_mismatch_reported_witness :
    (test_api_endpoint
        (Except.ok { status_code := 404, text := "\x7b\x7d",
                     jsonBody := some (Json.obj []) })
        "GET" "/api/admin/users" 200).result = some (Json.obj []) :=
  ((status_mismatch_reported_body_returned "GET" "/api/admin/users" 200
      { status_code := 404, text := "\x7b\x7d", jsonBody := some (Json.obj []) }
      (by decide) (by decide) (Or.inr rfl)).2.2.2).trans rfl

/-- Helper: when both method spellings are supported, the value
    returned and the number of requests issued by `test_api_endpoint`
    do not depend on the spelling (only console text echoes it). -/
theorem test_api_method_case (net : Net) (m₁ m₂ endpoint : String) (expected : Nat)
    (h₁ : supportedMethod m₁ = true) (h₂ : supportedMethod m₂ = true) :
    (test_api_endpoint net m₁ endpoint expected).result =
      (test_api_endpoint net m₂ endpoint expected).result ∧
    (test_api_endpoint net m₁ endpoint expected).attempts =
      (test_api_endpoint net m₂ endpoint expected).attempts := by
  cases net with
  | error e => cases e <;> simp [test_api_endpoint, tryBody, h₁, h₂]
  | ok resp =>
    by_cases hemp : resp.text.isEmpty
    · simp [test_api_endpoint, tryBody, h₁, h₂, hemp]
    · cases hj : resp.jsonBody <;>
        simp [test_api_endpoint, tryBody, h₁, h₂, hemp, hj]

/-- Claim C9: for every method string whose uppercasing is not GET,
    POST or PUT, `test_api_endpoint` returns `None` without issuing any
    request — the `ValueError` it raises is caught by its own generic
    handler, which prints the error line — and method matching is
    case-insensitive: "get" returns the same value and issues the same
    requests as "GET". -/
theorem unsupported_method_caught_case_insensitive :
    (∀ (net : Net) (method endpoint : String) (expected : Nat),
      supportedMethod method = false →
      (test_api_endpoint net method endpoint expected).result = none ∧
      (test_api_endpoint net method endpoint expected).attempts = 0 ∧
      (test_api_endpoint net method endpoint expected).console =
        [errorTestingLine method endpoint ("Unsupported method: " ++ method)]) ∧
    (∀ (net : Net) (endpoint : String) (expected : Nat),
      (test_api_endpoint net "get" endpoint expected).result =
        (test_api_endpoint net "GET" endpoint expected).result ∧
      (test_api_endpoint net "get" endpoint expected).attempts =
        (test_api_endpoint net "GET" endpoint expected).attempts) := by
  constructor
  · intro net method endpoint expected h
    simp [test_api_endpoint, tryBody, h, PyExc.message]
  · intro net endpoint expected
    exact test_api_method_case net "get" "GET" endpoint expected (by decide) (by decide)

/-- Witness for C9: a DELETE request returns `None` with no request
    issued. -/
theorem unsupported_method_caught_witness :
    (test_api_endpoint (Except.error PyExc.connectionError) "DELETE" "/api/admin/users"
        200).result = none ∧
    (test_api_endpoint (Except.error PyExc.connectionError) "DELETE" "/api/admin/users"
        200).attempts = 0 :=
  ⟨(unsupported_method_caught_case_insensitive.1 (Except.error PyExc.connectionError)
      "DELETE" "/api/admin/users" 200 (by decide)).1,
   (unsupported_method_caught_case_insensitive.1 (Except.error PyExc.connectionError)
      "DELETE" "/api/admin/users" 200 (by decide)).2.1⟩

/-- A sample active alert used to instantiate concrete checks. -/
def sampleAlert : Alert :=
  { id := 0, title := "Test Alert - System Check",
    message := "This is a test alert created by the system test script.",
    severity := "info", visibility_type := "organization",
    created_by := 1, expiry_time := 0, is_active := true }

/-- A sample backend holding one active alert and no deliveries. -/
def sampleBackend : Backend :=
  { alerts := [sampleAlert], deliveries := [], next_id := 1 }

/-- Claim C5: triggering the send-reminder endpoint on an active alert
    with zero eligible users returns success with `reminders_sent = 0`,
    not an error, and the harness takes its success path on that
    response (reporting a count of 0 via
    `reminder_response.get('reminders_sent', 0)`). -/
theorem zero_eligible_reminder_success :
    ∀ (b : Backend) (id : Nat) (a : Alert),
      findAlert b id = some a → a.is_active = true → eligibleUserCount b id = 0 →
      sendReminder b id =
        Json.obj [("success", Json.bool true), ("reminders_sent", Json.num 0)] ∧
      reminderBranch (some (sendReminder b id)) = (true, Json.num 0) := by
  intro b id a hfind hactive helig
  have h1 : sendReminder b id =
      Json.obj [("success", Json.bool true), ("reminders_sent", Json.num 0)] := by
    simp [sendReminder, hfind, hactive, helig]
  exact ⟨h1, by rw [h1]; rfl⟩

/-- Witness for C5: the sample backend's alert 0 is active with zero
    eligible users. -/
theorem zero_eligible_reminder_success_witness :
    reminderBranch (some (sendReminder sampleBackend 0)) = (true, Json.num 0) :=
  (zero_eligible_reminder_success sampleBackend 0 sampleAlert rfl rfl rfl).2

/-- Claim C6: creating an alert with valid fields returns status 201
    with a body containing `success` and `alert.id`; the harness's only
    call with a non-default expected status is the alert-creation POST,
    which expects exactly 201 (all other call sites expect the default
    200), and it extracts the created id from
    `response['alert']['id']`. -/
theorem create_alert_201_and_harness_expectations :
    (∀ tid uid aid rid : String,
      (harnessCallSites tid uid aid rid).map (fun c => c.expected) =
        [200, 200, 200, 200, 201, 200, 200, 200, 200, 200,
         200, 200, 200, 200, 200, 200, 200, 200, 200, 200] ∧
      (harnessCallSites tid uid aid rid)[4]? =
        some ⟨"POST", "/api/admin/alerts", 201⟩) ∧
    (∀ (b : Backend) (t m s v : String) (cb : Nat) (et : Int),
      (createAlert b t m s v cb et).2.1 = 201 ∧
      truthyOpt ((createAlert b t m s v cb et).2.2.lookup "success") = true ∧
      extractCreatedId (createAlert b t m s v cb et).2.2 =
        some (Json.num (Int.ofNat b.next_id))) := by
  constructor
  · intro tid uid aid rid
    exact ⟨rfl, rfl⟩
  · intro b t m s v cb et
    exact ⟨rfl, rfl, rfl⟩

/-- Helper: the read/unread/snooze update leaves the alert/user match
    predicate unchanged. -/
theorem matchD_updD (a u : Nat) (s : ReadState) (d : Delivery) :
    matchD a u (updD a u s d) = matchD a u d := by
  by_cases h : matchD a u d = true
  · simp only [updD, h, if_true]
    simp only [matchD] at h ⊢
    exact h
  · simp [updD, h]

/-- Helper: looking up the matching delivery after a state mutation
    finds the mutated image of the delivery found before. -/
theorem find_map_updD (a u : Nat) (s : ReadState) (l : List Delivery) :
    (l.map (updD a u s)).find? (matchD a u) =
      (l.find? (matchD a u)).map (updD a u s) := by
  induction l with
  | nil => rfl
  | cons d t ih =>
    by_cases h : matchD a u d = true
    · simp [List.find?, matchD_updD, h]
    · simp [List.find?, matchD_updD, h, ih]

/-- Helper: a state mutation sets the looked-up per-user state to the
    new state whenever a matching delivery exists. -/
theorem deliveryState_set (b : Backend) (a u : Nat) (s : ReadState) :
    deliveryState (setDeliveryState b a u s) a u =
      (deliveryState b a u).map (fun _ => s) := by
  unfold deliveryState setDeliveryState
  simp only
  rw [find_map_updD]
  cases hf : b.deliveries.find? (matchD a u) with
  | none => rfl
  | some d =>
    have hd : matchD a u d = true := List.find?_some hf
    simp [updD, hd]

/-- Claim C8: for every delivery visible to a user, marking it read and
    then marking it unread returns its per-user state to unread. -/
theorem read_then_unread_roundtrip :
    ∀ (b : Backend) (alert_id user_id : Nat) (s₀ : ReadState),
      deliveryState b alert_id user_id = some s₀ →
      deliveryState (markUnread (markRead b alert_id user_id) alert_id user_id)
          alert_id user_id = some ReadState.unread := by
  intro b a u s₀ h
  simp [markUnread, markRead, deliveryState_set, h]

/-- A sample backend with one delivery, for the round-trip witness. -/
def sampleBackendD : Backend :=
  { alerts := [sampleAlert],
    deliveries := [{ alert_id := 0, user_id := 2, state := ReadState.unread }],
    next_id := 1 }

/-- Witness for C8 on the sample delivery. -/
theorem read_then_unread_roundtrip_witness :
    deliveryState (markUnread (markRead sampleBackendD 0 2) 0 2) 0 2 =
      some ReadState.unread :=
  read_then_unread_roundtrip sampleBackendD 0 2 ReadState.unread rfl

/-- Helper: updating severity/message does not change an alert's id. -/
theorem updA_id (id : Nat) (s m : Option String) (a : Alert) :
    (updA id s m a).id = a.id := by
  unfold updA; split <;> rfl

/-- Helper: updating severity/message does not change an alert's
    activity. -/
theorem updA_active (id : Nat) (s m : Option String) (a : Alert) :
    (updA id s m a).is_active = a.is_active := by
  unfold updA; split <;> rfl

/-- Helper: archival does not change an alert's id. -/
theorem archA_id (id : Nat) (a : Alert) :
    (archA id a).id = a.id := by
  unfold archA; split <;> rfl

/-- Helper: archiving an alert establishes the archival invariant when
    all stored ids are fresh-bounded. -/
theorem archivedInv_archive (b : Backend) (id : Nat)
    (hWF : ∀ a ∈ b.alerts, a.id < b.next_id) (hlt : id < b.next_id) :
    ArchivedInv id (archiveAlert b id) := by
  refine ⟨?_, hlt, ?_⟩
  · intro a ha
    simp only [archiveAlert, List.mem_map] at ha
    obtain ⟨a', ha', rfl⟩ := ha
    rw [archA_id]
    exact hWF a' ha'
  · intro a ha heq
    simp only [archiveAlert, List.mem_map] at ha
    obtain ⟨a', ha', rfl⟩ := ha
    rw [archA_id] at heq
    unfold archA
    simp [heq]

/-- Helper: each API operation preserves the archival invariant. -/
theorem archivedInv_step (id : Nat) (b : Backend) (op : Op)
    (h : ArchivedInv id b) : ArchivedInv id (step b op) := by
  obtain ⟨hWF, hlt, hArch⟩ := h
  cases op with
  | create t m s v c e =>
    refine ⟨?_, Nat.lt_succ_of_lt hlt, ?_⟩
    · intro a ha
      simp only [step, createAlert, List.mem_append, List.mem_singleton] at ha
      rcases ha with ha | ha
      · exact Nat.lt_succ_of_lt (hWF a ha)
      · subst ha; exact Nat.lt_succ_self _
    · intro a ha heq
      simp only [step, createAlert, List.mem_append, List.mem_singleton] at ha
      rcases ha with ha | ha
      · exact hArch a ha heq
      · subst ha
        change b.next_id = id at heq
        omega
  | update uid s' m' =>
    refine ⟨?_, hlt, ?_⟩
    · intro a ha
      simp only [step, updateAlert, List.mem_map] at ha
      obtain ⟨a', ha', rfl⟩ := ha
      rw [updA_id]
      exact hWF a' ha'
    · intro a ha heq
      simp only [step, updateAlert, List.mem_map] at ha
      obtain ⟨a', ha', rfl⟩ := ha
      rw [updA_id] at heq
      rw [updA_active]
      exact hArch a' ha' heq
  | archive uid =>
    refine ⟨?_, hlt, ?_⟩
    · intro a ha
      simp only [step, archiveAlert, List.mem_map] at ha
      obtain ⟨a', ha', rfl⟩ := ha
      rw [archA_id]
      exact hWF a' ha'
    · intro a ha heq
      simp only [step, archiveAlert, List.mem_map] at ha
      obtain ⟨a', ha', rfl⟩ := ha
      rw [archA_id] at heq
      by_cases hc : (a'.id == uid) = true
      · unfold archA; simp [hc]
      · unfold archA
        rw [if_neg (by simpa using hc)]
        exact hArch a' ha' heq
  | markRead a u => exact ⟨hWF, hlt, hArch⟩
  | markUnread a u => exact ⟨hWF, hlt, hArch⟩
  | markSnooze a u => exact ⟨hWF, hlt, hArch⟩
  | sendRem i => exact ⟨hWF, hlt, hArch⟩

/-- Helper: the archival invariant is preserved across any operation
    sequence. -/
theorem archivedInv_foldl (id : Nat) (ops : List Op) :
    ∀ b, ArchivedInv id b → ArchivedInv id (ops.foldl step b) := by
  induction ops with
  | nil => intro b h; exact h
  | cons op t ih => intro b h; exact ih _ (archivedInv_step id b op h)

/-- Claim C7: after archival an alert is never active again — across
    every subsequent operation sequence its stored records stay
    inactive, it is absent from `status=active` filtered listings, and
    reminder triggering refuses it (success false, reminders_sent 0). -/
theorem archived_alert_stays_inactive :
    ∀ (b : Backend) (a₀ : Alert) (ops : List Op),
      (∀ a ∈ b.alerts, a.id < b.next_id) → a₀ ∈ b.alerts →
      (∀ a ∈ (ops.foldl step (archiveAlert b a₀.id)).alerts,
          a.id = a₀.id → a.is_active = false) ∧
      (∀ a ∈ listActiveAlerts (ops.foldl step (archiveAlert b a₀.id)),
          a.id ≠ a₀.id) ∧
      sendReminder (ops.foldl step (archiveAlert b a₀.id)) a₀.id =
        Json.obj [("success", Json.bool false), ("reminders_sent", Json.num 0)] := by
  intro b a₀ ops hWF hmem
  have hlt : a₀.id < b.next_id := hWF a₀ hmem
  obtain ⟨hWF', hlt', hArch'⟩ :=
    archivedInv_foldl a₀.id ops _ (archivedInv_archive b a₀.id hWF hlt)
  refine ⟨hArch', ?_, ?_⟩
  · intro a ha heq
    obtain ⟨hm, hact⟩ := List.mem_filter.mp ha
    have hfalse : a.is_active = false := hArch' a hm heq
    rw [hfalse] at hact
    cases hact
  · cases hf : findAlert (ops.foldl step (archiveAlert b a₀.id)) a₀.id with
    | none => simp [sendReminder, hf]
    | some a =>
      have hid : a.id = a₀.id := by simpa using List.find?_some hf
      have hm : a ∈ (ops.foldl step (archiveAlert b a₀.id)).alerts :=
        List.mem_of_find?_eq_some hf
      have hact : a.is_active = false := hArch' a hm hid
      simp [sendReminder, hf, hact]

/-- A sample operation sequence run after archival: a fresh creation, a
    read, an update of the archived alert, a reminder trigger, and an
    unrelated archive. -/
def archiveOps : List Op :=
  [Op.create "A" "B" "info" "organization" 1 0, Op.markRead 0 2,
   Op.update 0 (some "warning") none, Op.sendRem 0, Op.archive 5]

/-- Witness for C7 on the sample backend and operation sequence. -/
theorem archived_alert_stays_inactive_witness :
    sendReminder (archiveOps.foldl step (archiveAlert sampleBackendD sampleAlert.id))
        sampleAlert.id =
      Json.obj [("success", Json.bool false), ("reminders_sent", Json.num 0)] :=
  (archived_alert_stays_inactive sampleBackendD sampleAlert archiveOps
    (by decide) (by decide)).2.2
